import Mathlib

/-!
# PSCA front end (`script.js`): file selection, analysis orchestration, result rendering

A shallow embedding of the event handlers of `script.js`.

* Module state (`uploadedFile`) and the DOM properties the handlers assign are
  the fields of `State`; each handler is a function `State → State`.
* `alert(...)` appends to `State.alerts`; `fetch(...)` appends to
  `State.requests` and, for the promise chain of `analyzeProposal`, parks a
  `Phase` in `State.pending` until the matching completion event arrives.
* JavaScript numbers that `toFixed` and the sort comparator see are finite
  doubles; every finite double is a rational and both `toFixed` (ECMA-262
  21.1.3.3) and the sign of `b - a` are determined by that exact value, so
  numbers are embedded as `ℚ`.
* A request settles in one event that carries both how `fetch` settled and,
  for an accepted status, how `response.json()` settled; the handlers between
  the two assign nothing. Decoded bodies are typed as the HTTP contract gives
  them: `{ success: boolean }` with the flag possibly absent, and the
  analysis result with its four fields.
* `console.error` and `scrollIntoView` write nothing that any handler reads
  and are left out, as are `loadDatasetInfo`, the drag-over styling and the
  export stubs, which share no state with the handlers embedded here.
-/

namespace PSCA

/-! ## Data -/

/-- The two properties of a `File` object that `processFile` reads. -/
structure File where
  type : String
  name : String
deriving DecidableEq, Repr

/-- One entry of `data.matches` in the analyze response. -/
structure Match where
  document : String
  chunk : Int
  similarity : ℚ
  queryText : String
deriving DecidableEq

/-- The decoded body of `POST /api/analyze` (`matches_` is the field
`matches`, a reserved word here). -/
structure AnalysisResult where
  overallScore : ℚ
  recommendation : String
  shouldMerge : Bool
  matches_ : List Match
deriving DecidableEq

/-- The decoded body of `POST /api/upload`: `{ success: boolean }`, where the
flag may be absent (`none`, read as `undefined`). -/
structure UploadResult where
  success : Option Bool
deriving DecidableEq

/-- What `response.json()` settles with: a rejection carrying the engine's
`SyntaxError` message, or the decoded value. -/
inductive Body (α : Type) where
  | undecodable (message : String)
  | decoded (value : α)
deriving DecidableEq

/-- How a `fetch` followed by `response.json()` settles: `fetch` rejects with
an error carrying `message`, or resolves with a response of the given status
whose body is read when the status is accepted. -/
inductive Settled (α : Type) where
  | networkError (message : String)
  | response (status : Nat) (body : Body α)
deriving DecidableEq

/-- A network request issued by `analyzeProposal`. -/
inductive Request where
  | upload (file : File)
  | analyze
deriving DecidableEq, Repr

/-- Where a promise chain started by `analyzeProposal` is suspended. -/
inductive Phase where
  | uploading
  | awaitingAnalysis
deriving DecidableEq, Repr

/-- A child of `matchesList`: what assigning `innerHTML` parsed from a
non-empty string, or an element built by `createElement` and appended. -/
inductive Node where
  | markup (html : String)
  | element (tag className innerHTML : String)
deriving DecidableEq, Repr

/-- Module state and the DOM properties the handlers assign. -/
structure State where
  uploadedFile : Option File
  fileInputValue : String
  fileNameText : String
  fileInfoDisplay : String
  analyzeButtonDisabled : Bool
  analyzeButtonText : String
  progressBarDisplay : String
  resultsSectionDisplay : String
  overallScoreText : String
  recommendationText : String
  recommendationClass : String
  matchesList : List Node
  alerts : List String
  requests : List Request
  pending : List Phase
deriving DecidableEq

/-- The property values the page markup gives the DOM before any handler has
run. The markup is not part of `script.js`, so it is a parameter. -/
structure Page where
  fileInputValue : String
  fileNameText : String
  fileInfoDisplay : String
  analyzeButtonDisabled : Bool
  analyzeButtonText : String
  progressBarDisplay : String
  resultsSectionDisplay : String
  overallScoreText : String
  recommendationText : String
  recommendationClass : String
  matchesList : List Node

/-- State when the script has loaded: `let uploadedFile = null`, nothing
alerted, nothing requested by `analyzeProposal`. -/
def initialState (page : Page) : State :=
  { uploadedFile := none
    fileInputValue := page.fileInputValue
    fileNameText := page.fileNameText
    fileInfoDisplay := page.fileInfoDisplay
    analyzeButtonDisabled := page.analyzeButtonDisabled
    analyzeButtonText := page.analyzeButtonText
    progressBarDisplay := page.progressBarDisplay
    resultsSectionDisplay := page.resultsSectionDisplay
    overallScoreText := page.overallScoreText
    recommendationText := page.recommendationText
    recommendationClass := page.recommendationClass
    matchesList := page.matchesList
    alerts := []
    requests := []
    pending := [] }

/-! ## File selection -/

/-- The handler `processFile(file)`. -/
def processFile (s : State) (file : File) : State :=
  if file.type ≠ "application/pdf" then
    { s with alerts := s.alerts ++ ["Please select a PDF file."] }
  else
    { s with
      uploadedFile := some file
      fileNameText := file.name
      fileInfoDisplay := "flex"
      analyzeButtonDisabled := false
      analyzeButtonText := "Analyze Proposal" }

/-- The handler `removeSelectedFile()`. -/
def removeSelectedFile (s : State) : State :=
  { s with
    uploadedFile := none
    fileInputValue := ""
    fileInfoDisplay := "none"
    analyzeButtonDisabled := true
    analyzeButtonText := "Analyze Proposal" }

/-! ## Number formatting (platform semantics) -/

/-- The digit formatting of `Number.prototype.toFixed` for the scaled
integer `n` and `f` fraction digits: the decimal digits of `n`, left-padded
with zeroes to `f + 1` digits when there are at most `f`, with a point before
the last `f` of them. -/
def fixedDigits (n f : Nat) : List Char :=
  let m := Nat.toDigits 10 n
  if f ≠ 0 then
    let k := m.length
    let m := if k ≤ f then List.replicate (f + 1 - k) '0' ++ m else m
    let k := if k ≤ f then f + 1 else k
    m.take (k - f) ++ '.' :: m.drop (k - f)
  else m

/-- The integer `n` for which `n / 10 ^ f - x` is closest to zero, the larger
one when two are equally close (`x` non-negative). -/
def nearestScaled (x : ℚ) (f : Nat) : Nat :=
  ⌊x * 10 ^ f + 1 / 2⌋.toNat

/-- The call `x.toFixed(f)` for a finite number `x` (ECMA-262 21.1.3.3). From
`10 ^ 21` on the result is `ToString(x)`, which exponent notation makes
depend on the double's shortest round-trip digits; that function is the
parameter `numberToString`. -/
def toFixed (numberToString : ℚ → String) (x : ℚ) (f : Nat) : String :=
  let s := if x < 0 then "-" else ""
  let x := if x < 0 then -x else x
  if (10 : ℚ) ^ 21 ≤ x then s ++ numberToString x
  else s ++ String.mk (fixedDigits (nearestScaled x f) f)

/-- Template-literal conversion of an integer-valued number: plain decimal
digits below `10 ^ 21` in magnitude, `ToString` of the platform beyond. -/
def intToString (numberToString : ℚ → String) (i : Int) : String :=
  if i.natAbs < 10 ^ 21 then toString i else numberToString i

/-- The call `haystack.includes(needle)`: some tail of the haystack starts
with the needle. -/
def includes (haystack needle : String) : Bool :=
  haystack.data.tails.any (fun u => needle.data.isPrefixOf u)

/-! ## Result rendering -/

/-- Insertion step of `Array.prototype.sort`: `x` is placed in an already sorted array: before the
first element it does not have to follow (`comparator(x, y) ≤ 0`). -/
def insertSorted {α : Type} (comparator : α → α → ℚ) (x : α) : List α → List α
  | [] => [x]
  | y :: ys =>
    if comparator x y ≤ 0 then x :: y :: ys else y :: insertSorted comparator x ys

/-- The call `array.sort(comparator)`: the sort ECMA-262 requires to be
stable, as an insertion sort that keeps an element ahead of the later ones it
ties with. For the comparator used here the result does not depend on this
choice of algorithm (`sort_unique`). -/
def sort {α : Type} (comparator : α → α → ℚ) : List α → List α
  | [] => []
  | x :: xs => insertSorted comparator x (sort comparator xs)

/-- The comparator `(a, b) => b.similarity - a.similarity`. -/
def bySimilarity (a b : Match) : ℚ := b.similarity - a.similarity

/-- The assignment `element.innerHTML = html` on the child list: every child is dropped and
the parse of `html` takes their place (nothing for the empty string). -/
def setInnerHTML (_children : List Node) (html : String) : List Node :=
  if html = "" then [] else [Node.markup html]

/-- The template literal assigned to `matchElement.innerHTML`. -/
def matchInnerHTML (numberToString : ℚ → String) (m : Match) : String :=
  "\n            <div class=\"match-header\">\n                <span class=\"similarity-score\">"
    ++ toFixed numberToString m.similarity 2
    ++ "% similar</span>\n                <span class=\"match-doc\">"
    ++ m.document ++ " (Chunk #" ++ intToString numberToString m.chunk
    ++ ")</span>\n            </div>\n            <div class=\"match-content\">\n                <p><strong>Query Text:</strong> "
    ++ m.queryText ++ "</p>\n            </div>\n        "

/-- The `div` built for one match in the `forEach` body. -/
def matchElement (numberToString : ℚ → String) (m : Match) : Node :=
  Node.element "div" "match-item" (matchInnerHTML numberToString m)

/-- The function `populateMatches(matches)`, as a function of the children `matchesList`
has when it is called. -/
def populateMatches (numberToString : ℚ → String) (children : List Node)
    (matches_ : List Match) : List Node :=
  let children := setInnerHTML children ""
  if matches_.length = 0 then
    setInnerHTML children
      "<p>No significant matches found. The proposal appears to be unique.</p>"
  else
    (sort bySimilarity matches_).foldl
      (fun children m => children ++ [matchElement numberToString m]) children

/-- The function `showResults(data)`. -/
def showResults (numberToString : ℚ → String) (s : State) (data : AnalysisResult) : State :=
  { s with
    overallScoreText := toFixed numberToString data.overallScore 2 ++ "%"
    recommendationText := data.recommendation
    recommendationClass := "recommendation " ++ (if data.shouldMerge then "high" else "low")
    matchesList := populateMatches numberToString s.matchesList data.matches_
    resultsSectionDisplay := "block" }

/-! ## Analysis orchestration -/

/-- The handler `analyzeProposal()` up to the point where it returns with the upload
request issued and its promise chain suspended. -/
def analyzeProposal (s : State) : State :=
  match s.uploadedFile with
  | none => { s with alerts := s.alerts ++ ["Please select a file first."] }
  | some file =>
    { s with
      progressBarDisplay := "block"
      analyzeButtonDisabled := true
      analyzeButtonText := "Analyzing..."
      requests := s.requests ++ [Request.upload file]
      pending := s.pending ++ [Phase.uploading] }

/-- The `.then(response => ...)` link used after both requests: the chain
goes on with the decoded body, or rejects with an error of the given message
(`fetch` rejected, `!response.ok`, or `response.json()` rejected). -/
def checkResponse {α : Type} : Settled α → Except String α
  | .networkError message => .error message
  | .response status body =>
    if ¬ (200 ≤ status ∧ status ≤ 299) then
      .error ("HTTP error! status: " ++ toString status)
    else
      match body with
      | .undecodable message => .error message
      | .decoded value => .ok value

/-- The `.catch(error => ...)` handler, for an error with the given message. -/
def catchHandler (s : State) (message : String) : State :=
  { s with
    progressBarDisplay := "none"
    analyzeButtonDisabled := false
    analyzeButtonText := "Analyze Proposal"
    alerts := s.alerts ++
      [if includes message "Unexpected token" || includes message "HTTP error" then
        "An error occurred during analysis. The server may be misconfigured or unreachable."
      else
        "An error occurred during analysis: " ++ message] }

/-- The chain of pending run `run` resumes with the outcome of its upload
request: the two `.then` links after `fetch('/api/upload')`, or `.catch`. -/
def uploadSettled (s : State) (run : Nat) (outcome : Settled UploadResult) : State :=
  if s.pending[run]? = some Phase.uploading then
    match checkResponse outcome with
    | .error message => catchHandler { s with pending := s.pending.eraseIdx run } message
    | .ok data =>
      if data.success = some true then
        { s with
          requests := s.requests ++ [Request.analyze]
          pending := s.pending.set run Phase.awaitingAnalysis }
      else
        catchHandler { s with pending := s.pending.eraseIdx run } "Upload failed"
  else s

/-- The chain of pending run `run` resumes with the outcome of its analyze
request: the last two `.then` links, or `.catch`. -/
def analyzeSettled (numberToString : ℚ → String) (s : State) (run : Nat)
    (outcome : Settled AnalysisResult) : State :=
  if s.pending[run]? = some Phase.awaitingAnalysis then
    match checkResponse outcome with
    | .error message => catchHandler { s with pending := s.pending.eraseIdx run } message
    | .ok data =>
      showResults numberToString
        { s with
          pending := s.pending.eraseIdx run
          progressBarDisplay := "none"
          analyzeButtonText := "Analyze Proposal" }
        data
  else s

/-- What can happen to the page: a file arrives at `processFile` (from the
file input or a drop), the remove button or the analyze button is clicked, or
a request of a pending run settles. -/
inductive Event where
  | processFile (file : File)
  | removeSelectedFile
  | analyzeClick
  | uploadSettled (run : Nat) (outcome : Settled UploadResult)
  | analyzeSettled (run : Nat) (outcome : Settled AnalysisResult)

/-- One event handled to completion. A click on the analyze button reaches
`analyzeProposal` only while the button is not disabled. -/
def step (numberToString : ℚ → String) (s : State) : Event → State
  | .processFile file => processFile s file
  | .removeSelectedFile => removeSelectedFile s
  | .analyzeClick => if s.analyzeButtonDisabled then s else analyzeProposal s
  | .uploadSettled run outcome => uploadSettled s run outcome
  | .analyzeSettled run outcome => analyzeSettled numberToString s run outcome

/-- The state after a sequence of events. -/
def runEvents (numberToString : ℚ → String) (s : State) (events : List Event) : State :=
  events.foldl (step numberToString) s

/-- States reachable from page load through the event handlers. -/
def Reachable (numberToString : ℚ → String) (page : Page) (s : State) : Prop :=
  ∃ events, s = runEvents numberToString (initialState page) events

/-- The number of analyze requests issued so far. -/
def analyzeCalls (s : State) : Nat := s.requests.count Request.analyze

/-- The number of orchestration runs in flight. -/
def runsInFlight (s : State) : Nat := s.pending.length

/-! ## The specification's wording, for comparison -/

/-- A count `n` of hundredths written with exactly two decimal places: the
decimal digits of the whole part, a point, and the two digits of the
hundredths. -/
def twoDecimals (n : Nat) : List Char :=
  Nat.toDigits 10 (n / 100) ++ ['.', Nat.digitChar (n / 10 % 10), Nat.digitChar (n % 10)]

/-- A count `n` of hundredths displayed as a percentage with exactly two
decimal places. -/
def percentTwoDecimals (n : Nat) : String :=
  toString (n / 100) ++ "." ++
    String.mk [Nat.digitChar (n / 10 % 10), Nat.digitChar (n % 10)] ++ "%"

/-- The empty-state placeholder of the match list. -/
def emptyPlaceholder : Node :=
  Node.markup "<p>No significant matches found. The proposal appears to be unique.</p>"

/-- The generic message of the `.catch` handler. -/
def genericMessage : String :=
  "An error occurred during analysis. The server may be misconfigured or unreachable."

/-- An upload outcome that reports success: a 2xx status and a decoded body
whose `success` flag is `true`. -/
def uploadSucceeded : Settled UploadResult → Bool
  | .response status (.decoded data) =>
    decide (200 ≤ status ∧ status ≤ 299) && decide (data.success = some true)
  | _ => false

/-- The alert raised for a caught error, classified by its message alone:
the generic message when the message contains `Unexpected token` or
`HTTP error`, the message embedding the detail otherwise. -/
def failureAlert (message : String) : String :=
  if includes message "Unexpected token" = true ∨ includes message "HTTP error" = true then
    genericMessage
  else "An error occurred during analysis: " ++ message

/-- An event that is the settling of an upload with a success indication. -/
def isUploadSuccess : Event → Bool
  | .uploadSettled _ outcome => uploadSucceeded outcome
  | _ => false

/-! ## Sample inputs -/

/-- A PDF file. -/
def samplePdf : File := ⟨"application/pdf", "proposal.pdf"⟩

/-- A file whose declared type is not PDF. -/
def sampleImage : File := ⟨"image/png", "scan.png"⟩

/-- A page that starts with the analyze button disabled and nothing shown. -/
def samplePage : Page :=
  { fileInputValue := ""
    fileNameText := ""
    fileInfoDisplay := "none"
    analyzeButtonDisabled := true
    analyzeButtonText := "Analyze Proposal"
    progressBarDisplay := "none"
    resultsSectionDisplay := "none"
    overallScoreText := ""
    recommendationText := ""
    recommendationClass := "recommendation"
    matchesList := [] }

/-- A stand-in for the platform's `ToString` beyond `10 ^ 21`. -/
def sampleNumberToString : ℚ → String := fun _ => "1e+21"

/-- Four matches with similarities 50, 90, 90, 10 in that order. -/
def sampleMatches : List Match :=
  [⟨"a.pdf", 0, 50, "first"⟩, ⟨"b.pdf", 1, 90, "second"⟩,
   ⟨"c.pdf", 2, 90, "third"⟩, ⟨"d.pdf", 3, 10, "fourth"⟩]

/-- An analyze response whose score is the double written `83.456`. -/
def sampleResult : AnalysisResult :=
  { overallScore := 5872693914091127 / 70368744177664
    recommendation := "Merge recommended"
    shouldMerge := true
    matches_ := sampleMatches }

/-- A successful upload response. -/
def uploadOk : Settled UploadResult := .response 200 (.decoded ⟨some true⟩)

/-- An upload response with a 2xx status whose body reports failure. -/
def uploadRejected : Settled UploadResult := .response 200 (.decoded ⟨some false⟩)

/-- A successful analyze response. -/
def analyzeOk : Settled AnalysisResult := .response 200 (.decoded sampleResult)

/-- The events of a successful run followed by a run whose upload the server
rejects. -/
def rejectedAfterSuccess : List Event :=
  [.processFile samplePdf, .analyzeClick, .uploadSettled 0 uploadOk, .analyzeSettled 0 analyzeOk,
   .processFile samplePdf, .analyzeClick, .uploadSettled 0 uploadRejected]

/-! ## Sorting -/

theorem insertSorted_perm {α : Type} (c : α → α → ℚ) (x : α) (l : List α) :
    (insertSorted c x l).Perm (x :: l) := by
  induction l with
  | nil => simp [insertSorted]
  | cons y ys ih =>
    unfold insertSorted
    split
    · exact List.Perm.refl _
    · exact (List.Perm.cons y ih).trans (List.Perm.swap x y ys)

theorem sort_perm {α : Type} (c : α → α → ℚ) (l : List α) : (sort c l).Perm l := by
  induction l with
  | nil => simp [sort]
  | cons x xs ih =>
    unfold sort
    exact (insertSorted_perm c x _).trans (List.Perm.cons x ih)

theorem insertSorted_descending (x : Match) (l : List Match)
    (h : l.Pairwise (fun a b => b.similarity ≤ a.similarity)) :
    (insertSorted bySimilarity x l).Pairwise (fun a b => b.similarity ≤ a.similarity) := by
  induction l with
  | nil => simp [insertSorted]
  | cons y ys ih =>
    rw [List.pairwise_cons] at h
    unfold insertSorted
    split
    · rename_i hxy
      have hxy2 : y.similarity ≤ x.similarity := by
        simpa [bySimilarity] using hxy
      refine List.pairwise_cons.2 ⟨?_, List.pairwise_cons.2 h⟩
      intro a ha
      rcases List.mem_cons.1 ha with rfl | ha
      · exact hxy2
      · exact le_trans (h.1 a ha) hxy2
    · rename_i hxy
      have hxy2 : x.similarity < y.similarity := by
        simpa [bySimilarity] using hxy
      refine List.pairwise_cons.2 ⟨?_, ih h.2⟩
      intro a ha
      rcases List.mem_cons.1 ((insertSorted_perm bySimilarity x ys).mem_iff.1 ha) with rfl | ha
      · exact le_of_lt hxy2
      · exact h.1 a ha

theorem sort_descending (l : List Match) :
    (sort bySimilarity l).Pairwise (fun a b => b.similarity ≤ a.similarity) := by
  induction l with
  | nil => simp [sort]
  | cons x xs ih => unfold sort; exact insertSorted_descending x _ ih

theorem insertSorted_filter (v : ℚ) (x : Match) (l : List Match) :
    (insertSorted bySimilarity x l).filter (fun m => decide (m.similarity = v))
      = (x :: l).filter (fun m => decide (m.similarity = v)) := by
  induction l with
  | nil => simp [insertSorted]
  | cons y ys ih =>
    unfold insertSorted
    split
    · rfl
    · rename_i hxy
      have hxy2 : x.similarity < y.similarity := by
        simpa [bySimilarity] using hxy
      rw [List.filter_cons, ih]
      by_cases hx : x.similarity = v
      · have hy : y.similarity ≠ v := by
          intro hy; rw [hx, hy] at hxy2; exact lt_irrefl _ hxy2
        simp [List.filter_cons, hx, hy]
      · simp [List.filter_cons, hx]

theorem sort_filter (v : ℚ) (l : List Match) :
    (sort bySimilarity l).filter (fun m => decide (m.similarity = v))
      = l.filter (fun m => decide (m.similarity = v)) := by
  induction l with
  | nil => simp [sort]
  | cons x xs ih =>
    unfold sort
    rw [insertSorted_filter, List.filter_cons, List.filter_cons, ih]

/-- Two descending lists that agree on the sublist of every similarity value
are the same list: the order a stable descending sort produces is unique. -/
theorem descending_stable_unique (l₁ l₂ : List Match)
    (h₁ : l₁.Pairwise (fun a b => b.similarity ≤ a.similarity))
    (h₂ : l₂.Pairwise (fun a b => b.similarity ≤ a.similarity))
    (h : ∀ v : ℚ, l₁.filter (fun m => decide (m.similarity = v))
      = l₂.filter (fun m => decide (m.similarity = v))) :
    l₁ = l₂ := by
  induction l₁ generalizing l₂ with
  | nil =>
    cases l₂ with
    | nil => rfl
    | cons y ys =>
      have := h y.similarity
      simp [List.filter_cons] at this
  | cons x xs ih =>
    cases l₂ with
    | nil =>
      have := h x.similarity
      simp [List.filter_cons] at this
    | cons y ys =>
      rw [List.pairwise_cons] at h₁ h₂
      have hx : x ∈ (y :: ys) := by
        have hm : x ∈ (x :: xs).filter (fun m => decide (m.similarity = x.similarity)) := by
          simp [List.filter_cons]
        rw [h x.similarity] at hm
        exact (List.mem_filter.1 hm).1
      have hy : y ∈ (x :: xs) := by
        have hm : y ∈ (y :: ys).filter (fun m => decide (m.similarity = y.similarity)) := by
          simp [List.filter_cons]
        rw [← h y.similarity] at hm
        exact (List.mem_filter.1 hm).1
      have hxy : x.similarity ≤ y.similarity := by
        rcases List.mem_cons.1 hx with e | hx
        · rw [e]
        · exact h₂.1 x hx
      have hyx : y.similarity ≤ x.similarity := by
        rcases List.mem_cons.1 hy with e | hy
        · rw [e]
        · exact h₁.1 y hy
      have hsim : y.similarity = x.similarity := le_antisymm hyx hxy
      have hhead := h x.similarity
      simp only [List.filter_cons, hsim, decide_True, if_true] at hhead
      have hxy' : x = y := (List.cons.inj hhead).1
      subst hxy'
      have htail : xs = ys := by
        apply ih ys h₁.2 h₂.2
        intro v
        have hv := h v
        simp only [List.filter_cons] at hv
        by_cases hxv : x.similarity = v
        · simp only [hxv, decide_True, if_true] at hv
          exact (List.cons.inj hv).2
        · simpa only [hxv, decide_False, Bool.false_eq_true, if_false] using hv
      rw [htail]

/-- Any arrangement that is descending and keeps the input order within each
similarity value is the one `sort` computes. -/
theorem sort_unique (ms shown : List Match)
    (hsorted : shown.Pairwise (fun a b => b.similarity ≤ a.similarity))
    (hstable : ∀ v : ℚ, shown.filter (fun m => decide (m.similarity = v))
      = ms.filter (fun m => decide (m.similarity = v))) :
    shown = sort bySimilarity ms :=
  descending_stable_unique shown (sort bySimilarity ms) hsorted (sort_descending ms)
    (fun v => (hstable v).trans (sort_filter v ms).symm)

theorem foldl_append_singleton {α β : Type} (f : α → β) (l : List α) (acc : List β) :
    l.foldl (fun acc a => acc ++ [f a]) acc = acc ++ l.map f := by
  induction l generalizing acc with
  | nil => simp
  | cons x xs ih => simp [ih]

theorem populateMatches_eq (ns : ℚ → String) (children : List Node) (ms : List Match) :
    populateMatches ns children ms =
      if ms = [] then [emptyPlaceholder]
      else (sort bySimilarity ms).map (matchElement ns) := by
  unfold populateMatches emptyPlaceholder
  cases ms with
  | nil => simp [setInnerHTML]
  | cons m ms => simp [setInnerHTML, foldl_append_singleton]

/-! ## Decimal digits and `toFixed` -/

theorem toDigitsCore_acc (f n : Nat) (ds : List Char) :
    Nat.toDigitsCore 10 f n ds = Nat.toDigitsCore 10 f n [] ++ ds := by
  induction f generalizing n ds with
  | zero => simp [Nat.toDigitsCore]
  | succ f ih =>
    simp only [Nat.toDigitsCore]
    split
    · simp
    · rw [ih (n / 10) (_ :: ds), ih (n / 10) [_]]; simp

theorem toDigitsCore_fuel (f g n : Nat) (hf : n < f) (hg : n < g) :
    Nat.toDigitsCore 10 f n [] = Nat.toDigitsCore 10 g n [] := by
  induction f generalizing g n with
  | zero => omega
  | succ f ih =>
    cases g with
    | zero => omega
    | succ g =>
      simp only [Nat.toDigitsCore]
      split
      · rfl
      · rename_i h
        rw [toDigitsCore_acc f, toDigitsCore_acc g, ih g (n / 10) (by omega) (by omega)]

theorem toDigits_lt_ten (n : Nat) (h : n < 10) : Nat.toDigits 10 n = [Nat.digitChar n] := by
  have h0 : n / 10 = 0 := by omega
  have h1 : n % 10 = n := by omega
  simp [Nat.toDigits, Nat.toDigitsCore, h0, h1]

theorem toDigits_ten_le (n : Nat) (h : 10 ≤ n) :
    Nat.toDigits 10 n = Nat.toDigits 10 (n / 10) ++ [Nat.digitChar (n % 10)] := by
  have h0 : n / 10 ≠ 0 := by omega
  have step : Nat.toDigitsCore 10 (n + 1) n [] =
      Nat.toDigitsCore 10 n (n / 10) [Nat.digitChar (n % 10)] := by
    simp only [Nat.toDigitsCore, h0, if_false]
  unfold Nat.toDigits
  rw [step, toDigitsCore_acc, toDigitsCore_fuel n (n / 10 + 1) (n / 10) (by omega) (by omega)]

theorem toDigits_length_pos (n : Nat) : 0 < (Nat.toDigits 10 n).length := by
  by_cases h : n < 10
  · rw [toDigits_lt_ten n h]; simp
  · rw [toDigits_ten_le n (by omega)]; simp


theorem fixedDigits_two (n : Nat) : fixedDigits n 2 = twoDecimals n := by
  unfold fixedDigits twoDecimals
  by_cases h1 : n < 10
  · have a : n / 100 = 0 := by omega
    have b : n / 10 % 10 = 0 := by omega
    have c : n % 10 = n := by omega
    rw [toDigits_lt_ten n h1, a, b, c]
    rfl
  · by_cases h2 : n < 100
    · have a : n / 100 = 0 := by omega
      have b : n / 10 % 10 = n / 10 := by omega
      rw [toDigits_ten_le n (by omega), toDigits_lt_ten (n / 10) (by omega), a, b]
      rfl
    · have e : n / 10 / 10 = n / 100 := by omega
      rw [toDigits_ten_le n (by omega), toDigits_ten_le (n / 10) (by omega), e]
      have hpos := toDigits_length_pos (n / 100)
      generalize Nat.toDigits 10 (n / 100) = d at hpos ⊢
      have hk : ¬ (d.length + 1 + 1 ≤ 2) := by omega
      have hk2 : d.length + 1 + 1 - 2 = d.length := by omega
      simp [hk, hk2, List.take_append_eq_append_take, List.drop_append_eq_append_drop]


theorem nearestScaled_spec (x : ℚ) (f : Nat) (h0 : 0 ≤ x) :
    ((nearestScaled x f : Nat) : ℚ) - 1 / 2 ≤ x * 10 ^ f ∧
      x * 10 ^ f < (nearestScaled x f : Nat) + 1 / 2 := by
  have hnn : 0 ≤ ⌊x * 10 ^ f + 1 / 2⌋ := by
    apply Int.floor_nonneg.2
    positivity
  have hcast : ((nearestScaled x f : Nat) : ℚ) = ((⌊x * 10 ^ f + 1 / 2⌋ : Int) : ℚ) := by
    unfold nearestScaled
    have : ((⌊x * 10 ^ f + 1 / 2⌋.toNat : Nat) : Int) = ⌊x * 10 ^ f + 1 / 2⌋ := Int.toNat_of_nonneg hnn
    exact_mod_cast congrArg (fun z : Int => (z : ℚ)) this
  rw [hcast]
  have h1 := Int.floor_le (x * 10 ^ f + 1 / 2)
  have h2 := Int.lt_floor_add_one (x * 10 ^ f + 1 / 2)
  constructor <;> linarith

theorem toFixed_two_of_range (ns : ℚ → String) (x : ℚ) (h0 : 0 ≤ x) (h : x < 10 ^ 21) :
    toFixed ns x 2 ++ "%" = percentTwoDecimals (nearestScaled x 2) := by
  unfold toFixed percentTwoDecimals
  have hx : ¬ x < 0 := not_lt.2 h0
  have hb : ¬ ((10 : ℚ) ^ 21 ≤ x) := not_le.2 h
  simp only [hx, if_false, hb, fixedDigits_two, twoDecimals]
  apply String.ext
  simp [String.data_append]
  rfl

theorem fixed_example (ns : ℚ → String) (x : ℚ) (h1 : 83455 / 1000 ≤ x) (h2 : x < 83465 / 1000) :
    toFixed ns x 2 ++ "%" = "83.46%" := by
  have hn : nearestScaled x 2 = 8346 := by
    unfold nearestScaled
    have : ⌊x * 10 ^ 2 + 1 / 2⌋ = 8346 := by
      rw [Int.floor_eq_iff]
      constructor
      · push_cast; linarith
      · push_cast; linarith
    rw [this]; rfl
  rw [toFixed_two_of_range ns x (by linarith) (by linarith), hn]
  decide

/-! ## File selection: claims -/

/-- C7: for every file whose declared type is not `application/pdf` and every
prior state, `processFile` changes nothing but the alert it raises: the held
candidate, the displayed file name, the file-info visibility and the analyze
button's enabled state and label are as before, and the message shown is
`Please select a PDF file.`. -/
theorem processFile_non_pdf_unchanged (s : State) (file : File)
    (h : file.type ≠ "application/pdf") :
    processFile s file = { s with alerts := s.alerts ++ ["Please select a PDF file."] } ∧
      (processFile s file).uploadedFile = s.uploadedFile ∧
      (processFile s file).fileNameText = s.fileNameText ∧
      (processFile s file).fileInfoDisplay = s.fileInfoDisplay ∧
      (processFile s file).analyzeButtonDisabled = s.analyzeButtonDisabled ∧
      (processFile s file).analyzeButtonText = s.analyzeButtonText ∧
      (processFile s file).alerts = s.alerts ++ ["Please select a PDF file."] := by
  have e : processFile s file = { s with alerts := s.alerts ++ ["Please select a PDF file."] } := by
    unfold processFile
    rw [if_pos h]
  rw [e]
  exact ⟨rfl, rfl, rfl, rfl, rfl, rfl, rfl⟩

/-- C7 at a PNG offered while a PDF is held. -/
theorem processFile_non_pdf_unchanged_witness :
    sampleImage.type ≠ "application/pdf" ∧
      (processFile (processFile (initialState samplePage) samplePdf) sampleImage).uploadedFile
        = some samplePdf ∧
      (processFile (processFile (initialState samplePage) samplePdf) sampleImage).alerts
        = ["Please select a PDF file."] :=
  ⟨by decide,
   (processFile_non_pdf_unchanged (processFile (initialState samplePage) samplePdf)
      sampleImage (by decide)).2.1,
   (processFile_non_pdf_unchanged (processFile (initialState samplePage) samplePdf)
      sampleImage (by decide)).2.2.2.2.2.2⟩

/-- C8: for every prior state and every file, PDF or not, `processFile`
followed by `removeSelectedFile` leaves no held candidate and a disabled
analyze button, and `removeSelectedFile` applied twice gives the state it
gives applied once. -/
theorem processFile_then_removeSelectedFile (s : State) (file : File) :
    (removeSelectedFile (processFile s file)).uploadedFile = none ∧
      (removeSelectedFile (processFile s file)).analyzeButtonDisabled = true ∧
      removeSelectedFile (removeSelectedFile s) = removeSelectedFile s :=
  ⟨rfl, rfl, rfl⟩

/-! ## Result rendering: claims -/

/-- C3: for every match list, the entries `populateMatches` renders are the
matches in an order that is a permutation of the input, sorted by similarity
descending, with the matches of any one similarity in their input order; four
matches with similarities 50, 90, 90, 10 are shown as the first 90, the
second 90, the 50, the 10. -/
theorem populateMatches_sorted_stable (numberToString : ℚ → String)
    (children : List Node) (ms : List Match) :
    (populateMatches numberToString children ms =
        if ms = [] then [emptyPlaceholder]
        else (sort bySimilarity ms).map (matchElement numberToString)) ∧
      (sort bySimilarity ms).Perm ms ∧
      (sort bySimilarity ms).Pairwise (fun a b => b.similarity ≤ a.similarity) ∧
      (∀ v : ℚ, (sort bySimilarity ms).filter (fun m => decide (m.similarity = v))
        = ms.filter (fun m => decide (m.similarity = v))) ∧
      (∀ (d1 d2 d3 d4 : String) (c1 c2 c3 c4 : Int) (q1 q2 q3 q4 : String),
        populateMatches numberToString children
            [⟨d1, c1, 50, q1⟩, ⟨d2, c2, 90, q2⟩, ⟨d3, c3, 90, q3⟩, ⟨d4, c4, 10, q4⟩]
          = [matchElement numberToString ⟨d2, c2, 90, q2⟩,
             matchElement numberToString ⟨d3, c3, 90, q3⟩,
             matchElement numberToString ⟨d1, c1, 50, q1⟩,
             matchElement numberToString ⟨d4, c4, 10, q4⟩]) := by
  refine ⟨populateMatches_eq _ _ _, sort_perm _ _, sort_descending _, fun v => sort_filter v _, ?_⟩
  intro d1 d2 d3 d4 c1 c2 c3 c4 q1 q2 q3 q4
  rw [populateMatches_eq, if_neg (List.cons_ne_nil _ _)]
  norm_num [sort, insertSorted, bySimilarity]

/-- C9: for every previous content of the match list and every match list,
`populateMatches` replaces the content: the result does not depend on what
was there; for no matches it is exactly the empty-state placeholder, which is
no match entry; otherwise it is exactly one entry per given match, in some
order, and nothing else. -/
theorem populateMatches_full_replace (numberToString : ℚ → String)
    (previous : List Node) (ms : List Match) :
    populateMatches numberToString previous ms = populateMatches numberToString [] ms ∧
      populateMatches numberToString previous [] = [emptyPlaceholder] ∧
      (∀ m : Match, matchElement numberToString m ∉ populateMatches numberToString previous []) ∧
      (ms ≠ [] → (populateMatches numberToString previous ms).length = ms.length ∧
        ∃ shown : List Match, shown.Perm ms ∧
          populateMatches numberToString previous ms
            = shown.map (matchElement numberToString)) := by
  refine ⟨?_, ?_, ?_, ?_⟩
  · rw [populateMatches_eq, populateMatches_eq]
  · rw [populateMatches_eq]; rfl
  · intro m
    rw [populateMatches_eq]
    simp [emptyPlaceholder, matchElement]
  · intro h
    rw [populateMatches_eq, if_neg h]
    refine ⟨?_, sort bySimilarity ms, sort_perm _ _, rfl⟩
    rw [List.length_map]
    exact (sort_perm bySimilarity ms).length_eq

/-- C9 at the sample matches rendered over an earlier rendering of them. -/
theorem populateMatches_full_replace_witness :
    sampleMatches ≠ [] ∧
      (populateMatches sampleNumberToString
        (populateMatches sampleNumberToString [] sampleMatches) sampleMatches).length = 4 :=
  ⟨by decide,
   ((populateMatches_full_replace sampleNumberToString
      (populateMatches sampleNumberToString [] sampleMatches) sampleMatches).2.2.2
        (by decide)).1⟩

/-- C10: for every analysis result whose `overallScore` lies in [0, 100],
`showResults` displays the score as the nearest count of hundredths (the
larger one on a tie) written with exactly two decimal places and followed by
`%`; a score that rounds to 83.46, as the double written `83.456` does, is
displayed as `83.46%`. -/
theorem showResults_overallScore_two_decimals (numberToString : ℚ → String) (s : State)
    (data : AnalysisResult) (h0 : 0 ≤ data.overallScore) (h100 : data.overallScore ≤ 100) :
    (∃ n : Nat, n ≤ 10000 ∧
      (n : ℚ) - 1 / 2 ≤ data.overallScore * 100 ∧ data.overallScore * 100 < (n : ℚ) + 1 / 2 ∧
      (showResults numberToString s data).overallScoreText = percentTwoDecimals n) ∧
    (83455 / 1000 ≤ data.overallScore → data.overallScore < 83465 / 1000 →
      (showResults numberToString s data).overallScoreText = "83.46%") := by
  have hlt : data.overallScore < 10 ^ 21 := by
    have : (100 : ℚ) < 10 ^ 21 := by norm_num
    linarith
  have htext : (showResults numberToString s data).overallScoreText
      = toFixed numberToString data.overallScore 2 ++ "%" := rfl
  constructor
  · have hspec := nearestScaled_spec data.overallScore 2 h0
    have hpow : (10 : ℚ) ^ 2 = 100 := by norm_num
    rw [hpow] at hspec
    refine ⟨nearestScaled data.overallScore 2, ?_, hspec.1, hspec.2, ?_⟩
    · have h1 : ((nearestScaled data.overallScore 2 : Nat) : ℚ) < 10001 := by linarith
      have h2 : nearestScaled data.overallScore 2 < 10001 := by exact_mod_cast h1
      omega
    · rw [htext, toFixed_two_of_range numberToString _ h0 hlt]
  · intro h1 h2
    rw [htext]
    exact fixed_example numberToString _ h1 h2

/-- C10 at the double written `83.456`. -/
theorem showResults_overallScore_two_decimals_witness :
    (0 : ℚ) ≤ sampleResult.overallScore ∧ sampleResult.overallScore ≤ 100 ∧
      (showResults sampleNumberToString (initialState samplePage)
        sampleResult).overallScoreText = "83.46%" :=
  ⟨by norm_num [sampleResult], by norm_num [sampleResult],
   (showResults_overallScore_two_decimals sampleNumberToString (initialState samplePage)
      sampleResult (by norm_num [sampleResult]) (by norm_num [sampleResult])).2
        (by norm_num [sampleResult]) (by norm_num [sampleResult])⟩

/-! ## Analysis orchestration: lemmas -/

theorem includes_append_left (needle rest : String) :
    includes (needle ++ rest) needle = true := by
  unfold includes
  rw [List.any_eq_true]
  refine ⟨(needle ++ rest).data, ?_, ?_⟩
  · cases h : (needle ++ rest).data <;> simp [List.tails]
  · rw [String.data_append, List.isPrefixOf_iff_prefix]
    exact List.prefix_append _ _

theorem includes_http_error (status : Nat) :
    includes ("HTTP error! status: " ++ toString status) "HTTP error" = true := by
  have e : "HTTP error! status: " ++ toString status
      = "HTTP error" ++ ("! status: " ++ toString status) := by
    rw [← String.append_assoc]; rfl
  rw [e]
  exact includes_append_left _ _

theorem checkResponse_decoded {α : Type} (status : Nat) (value : α)
    (h : 200 ≤ status ∧ status ≤ 299) :
    checkResponse (Settled.response status (Body.decoded value)) = Except.ok value := by
  show (if ¬ (200 ≤ status ∧ status ≤ 299) then _ else _) = _
  rw [if_neg (not_not.2 h)]

theorem checkResponse_undecodable {α : Type} (status : Nat) (message : String)
    (h : 200 ≤ status ∧ status ≤ 299) :
    checkResponse (Settled.response status (Body.undecodable message : Body α))
      = Except.error message := by
  show (if ¬ (200 ≤ status ∧ status ≤ 299) then _ else _) = _
  rw [if_neg (not_not.2 h)]

theorem checkResponse_status {α : Type} (status : Nat) (body : Body α)
    (h : ¬ (200 ≤ status ∧ status ≤ 299)) :
    checkResponse (Settled.response status body)
      = Except.error ("HTTP error! status: " ++ toString status) := by
  show (if ¬ (200 ≤ status ∧ status ≤ 299) then _ else _) = _
  rw [if_pos h]

theorem step_analyzeCalls (numberToString : ℚ → String) (s : State) (e : Event) :
    analyzeCalls (step numberToString s e) = analyzeCalls s ∨
      ∃ run status, e = Event.uploadSettled run (.response status (.decoded ⟨some true⟩)) ∧
        (200 ≤ status ∧ status ≤ 299) ∧ s.pending[run]? = some Phase.uploading ∧
        (step numberToString s e).requests = s.requests ++ [Request.analyze] := by
  cases e with
  | processFile file =>
    left
    simp only [step, processFile, analyzeCalls]
    split <;> rfl
  | removeSelectedFile => left; rfl
  | analyzeClick =>
    left
    simp only [step, analyzeProposal, analyzeCalls]
    split
    · rfl
    · split
      · rfl
      · simp [List.count_append]
  | uploadSettled run outcome =>
    simp only [step, uploadSettled]
    by_cases hp : s.pending[run]? = some Phase.uploading
    · rw [if_pos hp]
      cases outcome with
      | networkError message => left; rfl
      | response status body =>
        by_cases hs : 200 ≤ status ∧ status ≤ 299
        · cases body with
          | undecodable message =>
            left
            rw [checkResponse_undecodable status message hs]
            rfl
          | decoded data =>
            rw [checkResponse_decoded status data hs]
            by_cases hd : data.success = some true
            · right
              refine ⟨run, status, ?_, hs, hp, ?_⟩
              · cases data with
                | mk success => simp only at hd; rw [hd]
              · simp only [hd, if_true]
            · left
              simp only [hd, if_false]
              rfl
        · left
          rw [checkResponse_status status body hs]
          rfl
    · left
      rw [if_neg hp]
  | analyzeSettled run outcome =>
    left
    simp only [step, analyzeSettled]
    split
    · split <;> rfl
    · rfl

theorem uploadSettled_failed_requests (s : State) (run : Nat) (outcome : Settled UploadResult)
    (h : uploadSucceeded outcome = false) :
    (uploadSettled s run outcome).requests = s.requests := by
  unfold uploadSettled
  split
  · cases outcome with
    | networkError message => rfl
    | response status body =>
      by_cases hs : 200 ≤ status ∧ status ≤ 299
      · cases body with
        | undecodable message =>
          rw [checkResponse_undecodable status message hs]
          rfl
        | decoded data =>
          rw [checkResponse_decoded status data hs]
          have hd : ¬ data.success = some true := by
            intro hd
            simp [uploadSucceeded, hs, hd] at h
          simp only [hd, if_false]
          rfl
      · rw [checkResponse_status status body hs]
        rfl
  · rfl

theorem step_analyzeCalls_le (numberToString : ℚ → String) (s : State) (e : Event) :
    analyzeCalls (step numberToString s e)
      ≤ analyzeCalls s + (if isUploadSuccess e = true then 1 else 0) := by
  rcases step_analyzeCalls numberToString s e with h | ⟨run, status, he, hs, _, hr⟩
  · omega
  · have h1 : analyzeCalls (step numberToString s e) = analyzeCalls s + 1 := by
      unfold analyzeCalls
      rw [hr]
      simp [List.count_append]
    have h2 : isUploadSuccess e = true := by
      rw [he]
      simp [isUploadSuccess, uploadSucceeded, hs]
    rw [h1, if_pos h2]

theorem runEvents_analyzeCalls_le (numberToString : ℚ → String) (events : List Event)
    (s : State) :
    analyzeCalls (runEvents numberToString s events)
      ≤ analyzeCalls s + (events.filter isUploadSuccess).length := by
  induction events generalizing s with
  | nil => simp [runEvents]
  | cons e es ih =>
    have h1 := ih (step numberToString s e)
    have h2 := step_analyzeCalls_le numberToString s e
    have h3 : runEvents numberToString s (e :: es)
        = runEvents numberToString (step numberToString s e) es := rfl
    rw [h3, List.filter_cons]
    by_cases he : isUploadSuccess e = true
    · rw [if_pos he] at h2 ⊢
      simp only [List.length_cons]
      omega
    · rw [if_neg he] at h2 ⊢
      omega

/-! ## Analysis orchestration: claims -/

/-- C4: the analyze request is issued only by the handler of an upload that
settled with a 2xx status and a decoded body whose `success` flag is `true`,
and that handler does issue it; for every upload outcome that is a network
error, a non-2xx status, an undecodable body, or a body whose flag is false
or absent, no request is issued; over any sequence of events there are at
most as many new analyze requests as uploads that settled with success. -/
theorem analyze_only_after_upload_success (numberToString : ℚ → String) (s : State) :
    (∀ e : Event, analyzeCalls (step numberToString s e) ≠ analyzeCalls s →
      ∃ run status, e = Event.uploadSettled run (.response status (.decoded ⟨some true⟩)) ∧
        (200 ≤ status ∧ status ≤ 299) ∧ s.pending[run]? = some Phase.uploading ∧
        (step numberToString s e).requests = s.requests ++ [Request.analyze]) ∧
    (∀ run status, 200 ≤ status ∧ status ≤ 299 → s.pending[run]? = some Phase.uploading →
      (uploadSettled s run (.response status (.decoded ⟨some true⟩))).requests
        = s.requests ++ [Request.analyze]) ∧
    (∀ run outcome, uploadSucceeded outcome = false →
      (uploadSettled s run outcome).requests = s.requests) ∧
    (∀ run message, (uploadSettled s run (.networkError message)).requests = s.requests) ∧
    (∀ run status body, ¬ (200 ≤ status ∧ status ≤ 299) →
      (uploadSettled s run (.response status body)).requests = s.requests) ∧
    (∀ run status message,
      (uploadSettled s run (.response status (.undecodable message))).requests = s.requests) ∧
    (∀ run status,
      (uploadSettled s run (.response status (.decoded ⟨some false⟩))).requests = s.requests) ∧
    (∀ run status,
      (uploadSettled s run (.response status (.decoded ⟨none⟩))).requests = s.requests) ∧
    (∀ events : List Event, analyzeCalls (runEvents numberToString s events)
      ≤ analyzeCalls s + (events.filter isUploadSuccess).length) := by
  refine ⟨?_, ?_, fun run outcome h => uploadSettled_failed_requests s run outcome h,
    ?_, ?_, ?_, ?_, ?_, fun events => runEvents_analyzeCalls_le numberToString events s⟩
  · intro e he
    rcases step_analyzeCalls numberToString s e with h | h
    · exact absurd h he
    · exact h
  · intro run status hs hp
    unfold uploadSettled
    rw [if_pos hp, checkResponse_decoded status _ hs]
    rfl
  · intro run message
    exact uploadSettled_failed_requests s run _ rfl
  · intro run status body hs
    apply uploadSettled_failed_requests
    cases body with
    | undecodable message => rfl
    | decoded data => simp [uploadSucceeded, hs]
  · intro run status message
    exact uploadSettled_failed_requests s run _ rfl
  · intro run status
    apply uploadSettled_failed_requests
    simp [uploadSucceeded]
  · intro run status
    apply uploadSettled_failed_requests
    simp [uploadSucceeded]

/-- C4 at a run whose upload is answered 200 with `success: true`, and at the
same run answered 500. -/
theorem analyze_only_after_upload_success_witness :
    (200 ≤ 200 ∧ 200 ≤ 299) ∧
      (analyzeProposal (processFile (initialState samplePage) samplePdf)).pending[0]?
        = some Phase.uploading ∧
      (uploadSettled (analyzeProposal (processFile (initialState samplePage) samplePdf)) 0
        uploadOk).requests = [Request.upload samplePdf, Request.analyze] ∧
      ¬ (200 ≤ 500 ∧ 500 ≤ 299) ∧
      (uploadSettled (analyzeProposal (processFile (initialState samplePage) samplePdf)) 0
        (.response 500 (.undecodable "<html>"))).requests = [Request.upload samplePdf] :=
  ⟨by decide, by decide,
   (analyze_only_after_upload_success sampleNumberToString
      (analyzeProposal (processFile (initialState samplePage) samplePdf))).2.1 0 200
        (by decide) (by decide),
   by decide,
   (analyze_only_after_upload_success sampleNumberToString
      (analyzeProposal (processFile (initialState samplePage) samplePdf))).2.2.2.2.1 0 500
        (.undecodable "<html>") (by decide)⟩

theorem pending_concat_get (l : List Phase) (p : Phase) : (l ++ [p])[l.length]? = some p := by
  simp

theorem pending_concat_erase (l : List Phase) (p : Phase) : (l ++ [p]).eraseIdx l.length = l := by
  induction l with
  | nil => rfl
  | cons x xs ih => simp [List.eraseIdx, ih]

theorem catchHandler_upload_failed (s : State) :
    catchHandler s "Upload failed" =
      { s with
        progressBarDisplay := "none"
        analyzeButtonDisabled := false
        analyzeButtonText := "Analyze Proposal"
        alerts := s.alerts ++ ["An error occurred during analysis: Upload failed"] } := by
  unfold catchHandler
  have h1 : includes "Upload failed" "Unexpected token" = false := by decide
  have h2 : includes "Upload failed" "HTTP error" = false := by decide
  simp [h1, h2]

theorem uploadSettled_rejected (s : State) (run status : Nat)
    (hs : 200 ≤ status ∧ status ≤ 299) (hp : s.pending[run]? = some Phase.uploading) :
    uploadSettled s run (.response status (.decoded ⟨some false⟩)) =
      { s with
        pending := s.pending.eraseIdx run
        progressBarDisplay := "none"
        analyzeButtonDisabled := false
        analyzeButtonText := "Analyze Proposal"
        alerts := s.alerts ++ ["An error occurred during analysis: Upload failed"] } := by
  unfold uploadSettled
  rw [if_pos hp, checkResponse_decoded status _ hs]
  simp only [Option.some.injEq, Bool.false_eq_true, if_false]
  rw [catchHandler_upload_failed]

/-- C6 (as amended): for every state in which a run is started and every
2xx upload response whose body reports `success: false`, the run ends with
the progress indicator hidden, the analyze button enabled with the label
`Analyze Proposal`, the upload request the only request issued (no analyze
call), the run no longer in flight, and the results panel's visibility left
as it was before the run; the same holds for the handler alone, from any
state in which the run is awaiting its upload. -/
theorem upload_rejected_resets_ui (s : State) (file : File) (status : Nat)
    (hfile : s.uploadedFile = some file) (hs : 200 ≤ status ∧ status ≤ 299) :
    ((uploadSettled (analyzeProposal s) s.pending.length
          (.response status (.decoded ⟨some false⟩))).progressBarDisplay = "none" ∧
      (uploadSettled (analyzeProposal s) s.pending.length
          (.response status (.decoded ⟨some false⟩))).analyzeButtonDisabled = false ∧
      (uploadSettled (analyzeProposal s) s.pending.length
          (.response status (.decoded ⟨some false⟩))).analyzeButtonText = "Analyze Proposal" ∧
      (uploadSettled (analyzeProposal s) s.pending.length
          (.response status (.decoded ⟨some false⟩))).requests
        = s.requests ++ [Request.upload file] ∧
      (uploadSettled (analyzeProposal s) s.pending.length
          (.response status (.decoded ⟨some false⟩))).pending = s.pending ∧
      (uploadSettled (analyzeProposal s) s.pending.length
          (.response status (.decoded ⟨some false⟩))).resultsSectionDisplay
        = s.resultsSectionDisplay ∧
      (uploadSettled (analyzeProposal s) s.pending.length
          (.response status (.decoded ⟨some false⟩))).alerts
        = s.alerts ++ ["An error occurred during analysis: Upload failed"]) ∧
    (∀ (t : State) (run : Nat), t.pending[run]? = some Phase.uploading →
      (uploadSettled t run (.response status (.decoded ⟨some false⟩))).progressBarDisplay
          = "none" ∧
        (uploadSettled t run (.response status (.decoded ⟨some false⟩))).analyzeButtonDisabled
          = false ∧
        (uploadSettled t run (.response status (.decoded ⟨some false⟩))).analyzeButtonText
          = "Analyze Proposal" ∧
        (uploadSettled t run (.response status (.decoded ⟨some false⟩))).requests
          = t.requests ∧
        (uploadSettled t run (.response status (.decoded ⟨some false⟩))).resultsSectionDisplay
          = t.resultsSectionDisplay) := by
  constructor
  · have ha : analyzeProposal s =
        { s with
          progressBarDisplay := "block"
          analyzeButtonDisabled := true
          analyzeButtonText := "Analyzing..."
          requests := s.requests ++ [Request.upload file]
          pending := s.pending ++ [Phase.uploading] } := by
      unfold analyzeProposal
      rw [hfile]
    have hp : (analyzeProposal s).pending[s.pending.length]? = some Phase.uploading := by
      rw [ha]
      exact pending_concat_get _ _
    rw [uploadSettled_rejected _ _ _ hs hp, ha]
    refine ⟨rfl, rfl, rfl, rfl, ?_, rfl, rfl⟩
    exact pending_concat_erase _ _
  · intro t run hp
    rw [uploadSettled_rejected _ _ _ hs hp]
    exact ⟨rfl, rfl, rfl, rfl, rfl⟩

/-- C6 (as amended) at a first run from the sample page, answered 200 with
`success: false`. -/
theorem upload_rejected_resets_ui_witness :
    (processFile (initialState samplePage) samplePdf).uploadedFile = some samplePdf ∧
      (200 ≤ 200 ∧ 200 ≤ 299) ∧
      (uploadSettled (analyzeProposal (processFile (initialState samplePage) samplePdf))
          (processFile (initialState samplePage) samplePdf).pending.length
          (.response 200 (.decoded ⟨some false⟩))).resultsSectionDisplay = "none" :=
  ⟨by decide, by decide,
   (upload_rejected_resets_ui (processFile (initialState samplePage) samplePdf) samplePdf 200
      (by decide) (by decide)).1.2.2.2.2.2.1⟩

/-- C6 as stated fails: after a run that succeeded, a run whose upload is
answered 2xx with `success: false` ends with the results panel still shown. -/
theorem upload_rejected_results_still_shown :
    (runEvents sampleNumberToString (initialState samplePage)
        rejectedAfterSuccess).resultsSectionDisplay = "block" ∧
      (runEvents sampleNumberToString (initialState samplePage)
        rejectedAfterSuccess).pending = [] ∧
      (runEvents sampleNumberToString (initialState samplePage)
        rejectedAfterSuccess).requests
        = [.upload samplePdf, .analyze, .upload samplePdf] ∧
      (runEvents sampleNumberToString (initialState samplePage)
        rejectedAfterSuccess).alerts = ["An error occurred during analysis: Upload failed"] := by
  decide

theorem catchHandler_alerts (s : State) (message : String) :
    (catchHandler s message).alerts = s.alerts ++ [failureAlert message] := by
  unfold catchHandler failureAlert genericMessage
  simp

theorem uploadSettled_error_alerts (s : State) (run : Nat) (outcome : Settled UploadResult)
    (message : String) (hp : s.pending[run]? = some Phase.uploading)
    (he : checkResponse outcome = Except.error message) :
    (uploadSettled s run outcome).alerts = s.alerts ++ [failureAlert message] := by
  unfold uploadSettled
  rw [if_pos hp, he]
  exact catchHandler_alerts _ _

theorem analyzeSettled_error_alerts (numberToString : ℚ → String) (s : State) (run : Nat)
    (outcome : Settled AnalysisResult) (message : String)
    (hp : s.pending[run]? = some Phase.awaitingAnalysis)
    (he : checkResponse outcome = Except.error message) :
    (analyzeSettled numberToString s run outcome).alerts
      = s.alerts ++ [failureAlert message] := by
  unfold analyzeSettled
  rw [if_pos hp, he]
  exact catchHandler_alerts _ _

theorem failureAlert_http_error (status : Nat) :
    failureAlert ("HTTP error! status: " ++ toString status) = genericMessage := by
  unfold failureAlert
  rw [if_pos (Or.inr (includes_http_error status))]

/-- C5 (as amended): for every failure caught by `analyzeProposal`, on the
upload or the analyze request, a non-2xx status always produces the generic
`server may be misconfigured or unreachable` message, while an undecodable
response and a network error produce it exactly when the error's message
contains `Unexpected token` or `HTTP error`, and otherwise produce the
message that embeds the failure detail. -/
theorem catch_alert_by_message (numberToString : ℚ → String) (s : State) (run : Nat) :
    (s.pending[run]? = some Phase.uploading →
      (∀ status body, ¬ (200 ≤ status ∧ status ≤ 299) →
        (uploadSettled s run (.response status body)).alerts
          = s.alerts ++ [genericMessage]) ∧
      (∀ status message, 200 ≤ status ∧ status ≤ 299 →
        (uploadSettled s run (.response status (.undecodable message))).alerts
          = s.alerts ++ [failureAlert message]) ∧
      (∀ message, (uploadSettled s run (.networkError message)).alerts
          = s.alerts ++ [failureAlert message])) ∧
    (s.pending[run]? = some Phase.awaitingAnalysis →
      (∀ status body, ¬ (200 ≤ status ∧ status ≤ 299) →
        (analyzeSettled numberToString s run (.response status body)).alerts
          = s.alerts ++ [genericMessage]) ∧
      (∀ status message, 200 ≤ status ∧ status ≤ 299 →
        (analyzeSettled numberToString s run (.response status (.undecodable message))).alerts
          = s.alerts ++ [failureAlert message]) ∧
      (∀ message, (analyzeSettled numberToString s run (.networkError message)).alerts
          = s.alerts ++ [failureAlert message])) ∧
    (∀ message, failureAlert message = genericMessage ↔
      (includes message "Unexpected token" = true ∨ includes message "HTTP error" = true)) := by
  refine ⟨fun hp => ⟨?_, ?_, ?_⟩, fun hp => ⟨?_, ?_, ?_⟩, ?_⟩
  · intro status body hs
    rw [uploadSettled_error_alerts s run _ _ hp (checkResponse_status status body hs),
      failureAlert_http_error]
  · intro status message hs
    exact uploadSettled_error_alerts s run _ _ hp (checkResponse_undecodable status message hs)
  · intro message
    exact uploadSettled_error_alerts s run _ _ hp rfl
  · intro status body hs
    rw [analyzeSettled_error_alerts numberToString s run _ _ hp
      (checkResponse_status status body hs), failureAlert_http_error]
  · intro status message hs
    exact analyzeSettled_error_alerts numberToString s run _ _ hp
      (checkResponse_undecodable status message hs)
  · intro message
    exact analyzeSettled_error_alerts numberToString s run _ _ hp rfl
  · intro message
    unfold failureAlert
    constructor
    · intro h
      by_contra hn
      rw [if_neg hn] at h
      have hd := congrArg String.data h
      rw [String.data_append] at hd
      have ht := congrArg (List.take 34) hd
      rw [List.take_append_of_le_length (by decide)] at ht
      revert ht
      decide
    · intro h
      rw [if_pos h]


/-- C5 (as amended) at a first run from the sample page whose upload is
answered with status 500. -/
theorem catch_alert_by_message_witness :
    (analyzeProposal (processFile (initialState samplePage) samplePdf)).pending[0]?
        = some Phase.uploading ∧
      ¬ (200 ≤ 500 ∧ 500 ≤ 299) ∧
      (uploadSettled (analyzeProposal (processFile (initialState samplePage) samplePdf)) 0
        (.response 500 (.undecodable "<html>"))).alerts = [] ++ [genericMessage] :=
  ⟨by decide, by decide,
   ((catch_alert_by_message sampleNumberToString
      (analyzeProposal (processFile (initialState samplePage) samplePdf)) 0).1
        (by decide)).1 500 (.undecodable "<html>") (by decide)⟩

/-- C5 as stated fails: a network error with the message `Failed to fetch`
on the upload, and an analyze response that cannot be decoded with the
message `Unexpected end of JSON input`, each produce the message that embeds
the failure detail, not the generic one. -/
theorem network_error_embeds_detail :
    (runEvents sampleNumberToString (initialState samplePage)
        [.processFile samplePdf, .analyzeClick,
         .uploadSettled 0 (.networkError "Failed to fetch")]).alerts
      = ["An error occurred during analysis: Failed to fetch"] ∧
    (runEvents sampleNumberToString (initialState samplePage)
        [.processFile samplePdf, .analyzeClick, .uploadSettled 0 uploadOk,
         .analyzeSettled 0 (.response 200 (.undecodable "Unexpected end of JSON input"))]).alerts
      = ["An error occurred during analysis: Unexpected end of JSON input"] ∧
    "An error occurred during analysis: Failed to fetch" ≠ genericMessage ∧
    "An error occurred during analysis: Unexpected end of JSON input" ≠ genericMessage := by
  decide

/-- C1, evaluated where it fails: from any page, a PDF is selected and the
analyze button clicked; the button is then disabled with one run in flight,
so a click is not delivered; selecting a PDF again while the run is in flight
enables the button, and the next click issues a second upload: two upload
requests, two runs in flight. -/
theorem second_upload_while_in_flight (numberToString : ℚ → String) (page : Page) :
    (runEvents numberToString (initialState page)
        [.processFile samplePdf, .analyzeClick, .analyzeClick]).requests
      = [.upload samplePdf] ∧
    (runEvents numberToString (initialState page)
        [.processFile samplePdf, .analyzeClick, .processFile samplePdf]).analyzeButtonDisabled
      = false ∧
    runsInFlight (runEvents numberToString (initialState page)
        [.processFile samplePdf, .analyzeClick, .processFile samplePdf]) = 1 ∧
    (runEvents numberToString (initialState page)
        [.processFile samplePdf, .analyzeClick, .processFile samplePdf, .analyzeClick]).requests
      = [.upload samplePdf, .upload samplePdf] ∧
    runsInFlight (runEvents numberToString (initialState page)
        [.processFile samplePdf, .analyzeClick, .processFile samplePdf, .analyzeClick]) = 2 ∧
    ¬ (∀ s : State, Reachable numberToString page s → runsInFlight s ≤ 1) :=
  ⟨rfl, rfl, rfl, rfl, rfl, fun h => by
    have h2 : runsInFlight (runEvents numberToString (initialState page)
        [.processFile samplePdf, .analyzeClick, .processFile samplePdf, .analyzeClick]) = 2 := rfl
    have h1 := h _ ⟨[.processFile samplePdf, .analyzeClick, .processFile samplePdf,
      .analyzeClick], rfl⟩
    omega⟩

/-- C2, evaluated where it fails: from any page, after a run that succeeded
a candidate is held and no run is in flight, yet the analyze button is
disabled; after a PDF is selected during a run the button is enabled with a
run in flight; after the candidate is removed during a run whose upload is
then rejected the button is enabled with no candidate held. -/
theorem analyze_button_not_iff_ready (numberToString : ℚ → String) (page : Page) :
    ((runEvents numberToString (initialState page)
        [.processFile samplePdf, .analyzeClick, .uploadSettled 0 uploadOk,
         .analyzeSettled 0 analyzeOk]).uploadedFile = some samplePdf ∧
      runsInFlight (runEvents numberToString (initialState page)
        [.processFile samplePdf, .analyzeClick, .uploadSettled 0 uploadOk,
         .analyzeSettled 0 analyzeOk]) = 0 ∧
      (runEvents numberToString (initialState page)
        [.processFile samplePdf, .analyzeClick, .uploadSettled 0 uploadOk,
         .analyzeSettled 0 analyzeOk]).analyzeButtonDisabled = true) ∧
    ((runEvents numberToString (initialState page)
        [.processFile samplePdf, .analyzeClick, .processFile samplePdf]).analyzeButtonDisabled
        = false ∧
      runsInFlight (runEvents numberToString (initialState page)
        [.processFile samplePdf, .analyzeClick, .processFile samplePdf]) = 1) ∧
    ((runEvents numberToString (initialState page)
        [.processFile samplePdf, .analyzeClick, .removeSelectedFile,
         .uploadSettled 0 uploadRejected]).uploadedFile = none ∧
      (runEvents numberToString (initialState page)
        [.processFile samplePdf, .analyzeClick, .removeSelectedFile,
         .uploadSettled 0 uploadRejected]).analyzeButtonDisabled = false) ∧
    ¬ (∀ s : State, Reachable numberToString page s →
        (s.analyzeButtonDisabled = false ↔ (s.uploadedFile ≠ none ∧ runsInFlight s = 0))) :=
  ⟨⟨rfl, rfl, rfl⟩, ⟨rfl, rfl⟩, ⟨rfl, rfl⟩, fun h => by
    have hfile : (runEvents numberToString (initialState page)
        [.processFile samplePdf, .analyzeClick, .uploadSettled 0 uploadOk,
         .analyzeSettled 0 analyzeOk]).uploadedFile = some samplePdf := rfl
    have hidle : runsInFlight (runEvents numberToString (initialState page)
        [.processFile samplePdf, .analyzeClick, .uploadSettled 0 uploadOk,
         .analyzeSettled 0 analyzeOk]) = 0 := rfl
    have hdisabled : (runEvents numberToString (initialState page)
        [.processFile samplePdf, .analyzeClick, .uploadSettled 0 uploadOk,
         .analyzeSettled 0 analyzeOk]).analyzeButtonDisabled = true := rfl
    have henabled := (h _ ⟨[.processFile samplePdf, .analyzeClick, .uploadSettled 0 uploadOk,
      .analyzeSettled 0 analyzeOk], rfl⟩).2 ⟨by rw [hfile]; exact Option.some_ne_none _, hidle⟩
    rw [hdisabled] at henabled
    exact Bool.noConfusion henabled⟩

end PSCA
